import Mathlib

/-!
Verification of the run orchestration subsystem of the MENTOR python API
(`mentor_py_api/run_store.py`): a shallow embedding of the training-run
registry, its file-backed status derivation, metadata persistence and the
startup recovery scan, together with theorems about the behaviour of
`try_start`, `get_status`, `TrainingRunMetadata.save` and `try_load`,
and `resume_unfinished_runs`.

Modelling conventions:
* The file system is a snapshot: a finite map from path to parsed JSON
  content (`none` content means the file exists but is unreadable or not
  valid JSON, which the source treats identically via its
  `except (OSError, json.JSONDecodeError)` clauses), plus the list of
  existing directories.  `os.path.join` is modelled with a `/` separator.
* Python exceptions that the source catches become `Option`; an exception
  the source does NOT catch is modelled with `Except.error`.
* `asyncio.Task` state is an explicit inductive: a freshly created task is
  `running`; `task.done()` holds for every other state, and
  `task.result()` either yields the outcome or raises.
* Directory enumeration (`Path(results_dir).iterdir()`) is supplied as an
  explicit list of entry names; the per-entry `is_dir` check is kept.
* `os.path.abspath` in `_resolve_results_directory` is modelled as the
  identity on the chosen candidate.
-/

namespace Mentor

/-- JSON documents, as produced by `json.load` and consumed by `json.dumps`. -/
inductive Json where
  | null
  | bool (b : Bool)
  | num (n : Int)
  | str (s : String)
  | arr (items : List Json)
  | obj (fields : List (String × Json))
deriving Repr

/-- Python `dict` read: first binding for the key (keys are unique). -/
def dictGet {V : Type} (d : List (String × V)) (k : String) : Option V :=
  match d with
  | [] => none
  | (k1, v1) :: rest => if k1 = k then some v1 else dictGet rest k

/-- Python `dict` write: replace the binding in place, or append it. -/
def dictSet {V : Type} (d : List (String × V)) (k : String) (v : V) : List (String × V) :=
  match d with
  | [] => [(k, v)]
  | (k1, v1) :: rest => if k1 = k then (k, v) :: rest else (k1, v1) :: dictSet rest k v

/-- File-system snapshot. `files` maps a path to its parsed JSON content
(`none` content: the file exists but is unreadable or not valid JSON);
`dirs` lists the existing directories. -/
structure FS where
  files : List (String × Option Json)
  dirs : List String
deriving Repr

/-- `os.path.isfile`. -/
def FS.isFile (fs : FS) (p : String) : Bool := (dictGet fs.files p).isSome

/-- `os.path.isdir` / `Path.is_dir`. -/
def FS.isDir (fs : FS) (p : String) : Bool := fs.dirs.contains p

/-- `Path.exists`: true for files and directories. -/
def FS.pathExists (fs : FS) (p : String) : Bool := fs.isFile p || fs.isDir p

/-- `open` + `json.load`, with `OSError` and `JSONDecodeError` mapped to `none`. -/
def FS.readJson (fs : FS) (p : String) : Option Json :=
  match dictGet fs.files p with
  | some content => content
  | none => none

/-- `write_text` of a serialized JSON document. -/
def FS.writeJson (fs : FS) (p : String) (j : Json) : FS :=
  { fs with files := dictSet fs.files p (some j) }

/-- `mkdir(parents=True, exist_ok=True)` for each listed directory. -/
def FS.mkdirp (fs : FS) (ds : List String) : FS :=
  { fs with dirs := fs.dirs ++ ds.filter (fun d => !fs.dirs.contains d) }

/-- Python `str.lower()`, modelled as per-character lowering (the statuses
and extensions the source lowercases are ASCII). -/
def strToLower (s : String) : String := ⟨s.data.map Char.toLower⟩

/-- Python `str.endswith(suffix)`. -/
def strEndsWith (s suffix : String) : Bool := suffix.data.isSuffixOf s.data

/-- `options.py`: `DEFAULT_RESULTS_DIRECTORY`. -/
def DEFAULT_RESULTS_DIRECTORY : String := "X:\\workspace\\ml-agents\\results"

/-- `options.py`: `TrainingOptions` (the validated run options; the
class-level `default_results_directory` constant is kept module-level). -/
structure TrainingOptions where
  env_executable_path : Option String
  trainer_config_path : String
  run_id : String
  results_directory : String
  conda_environment_name : String
  base_port : Option Int
  no_graphics : Bool
  skip_conda : Bool
  launch_tensorboard : Bool
deriving Repr, DecidableEq

/-- `run_store.build_training_status_path`. -/
def build_training_status_path (results_directory run_id : String) : String :=
  results_directory ++ "/" ++ run_id ++ "/run_logs/training_status.json"

/-- `run_store.build_run_directory`. -/
def build_run_directory (results_directory run_id : String) : String :=
  results_directory ++ "/" ++ run_id

/-- The synonym table inside `_normalize_status` (`lookup.get(normalized, status)`
is split into this total lookup returning `none` on a miss). -/
def statusLookup (normalized : String) : Option String :=
  if normalized = "success" then some "succeeded"
  else if normalized = "succeeded" then some "succeeded"
  else if normalized = "completed" then some "succeeded"
  else if normalized = "failure" then some "failed"
  else if normalized = "failed" then some "failed"
  else none

/-- `run_store._normalize_status`: `if status:` is Python truthiness, so both
`None` and the empty string fall through to `"completed"`. -/
def normalize_status (status : Option String) : String :=
  match status with
  | some s => if s ≠ "" then (statusLookup (strToLower s)).getD s else "completed"
  | none => "completed"

/-- `run_store._try_read_status`: read the file as JSON, return its `"status"`
field when the document is an object and the field a string, else `None`;
read or parse errors yield `None`. -/
def try_read_status (fs : FS) (path : String) : Option String :=
  match fs.readJson path with
  | some (Json.obj fields) =>
    match dictGet fields "status" with
    | some (Json.str value) => some value
    | _ => none
  | some _ => none
  | none => none

/-- `run_store.TrainingStatusPayload`. -/
structure TrainingStatusPayload where
  run_id : String
  status : String
  completed : Bool
  exit_code : Option Int
  results_directory : Option String
  training_status_path : Option String
  message : Option String
  tensorboard_url : Option String
deriving Repr, DecidableEq

/-- `TrainingStatusPayload.from_files`: the file-backed status derivation. -/
def TrainingStatusPayload.from_files (fs : FS) (run_id results_directory : String) :
    TrainingStatusPayload :=
  let training_status_path := build_training_status_path results_directory run_id
  if fs.isFile training_status_path then
    let status_text := try_read_status fs training_status_path
    let normalized := normalize_status status_text
    { run_id := run_id, status := normalized, completed := true, exit_code := none,
      results_directory := some results_directory,
      training_status_path := some training_status_path,
      message := none, tensorboard_url := none }
  else
    let run_directory := build_run_directory results_directory run_id
    if fs.isDir run_directory then
      { run_id := run_id, status := "unknown", completed := false, exit_code := none,
        results_directory := some results_directory,
        training_status_path := some training_status_path,
        message := some "Run directory exists but training_status.json has not been written yet.",
        tensorboard_url := none }
    else
      { run_id := run_id, status := "not-found", completed := false, exit_code := none,
        results_directory := some results_directory,
        training_status_path := some training_status_path,
        message := some ("No run data found at '" ++ run_directory ++ "'."),
        tensorboard_url := none }

/-- `run_store.TrainingRunOutcome`. The `error` field holds `str(exception)`. -/
structure TrainingRunOutcome where
  exit_code : Option Int
  error : Option String
deriving Repr, DecidableEq

/-- `TrainingRunOutcome.is_success`: `self.error is None and (self.exit_code or 0) == 0`.
Python `exit_code or 0` yields `0` exactly when `exit_code` is `None` or `0`,
which coincides with `Option.getD 0`. -/
def TrainingRunOutcome.is_success (o : TrainingRunOutcome) : Bool :=
  o.error.isNone && (o.exit_code.getD 0 == 0)

/-- `TrainingRunOutcome.from_exit_code`. -/
def TrainingRunOutcome.from_exit_code (exit_code : Int) : TrainingRunOutcome :=
  ⟨some exit_code, none⟩

/-- `TrainingRunOutcome.from_error`. -/
def TrainingRunOutcome.from_error (error : String) : TrainingRunOutcome :=
  ⟨none, some error⟩

/-- `run_store.TrainingRunMetadata` (the durable snapshot of the options). -/
structure TrainingRunMetadata where
  env_path : Option String
  config_path : String
  run_id : String
  results_directory : String
  conda_environment_name : String
  base_port : Option Int
  no_graphics : Bool
  skip_conda : Bool
  launch_tensorboard : Bool
deriving Repr, DecidableEq

/-- `TrainingRunMetadata.metadata_file_name`. -/
def metadata_file_name : String := "run_metadata.json"

/-- Serialization of an optional string field (`None` becomes JSON `null`). -/
def jsonOfOptStr : Option String → Json
  | some s => Json.str s
  | none => Json.null

/-- Serialization of an optional integer field (`None` becomes JSON `null`). -/
def jsonOfOptInt : Option Int → Json
  | some n => Json.num n
  | none => Json.null

/-- `payload.get(key)` read at an optional-string field: absent keys and
JSON `null` both come back as `None`. -/
def getOptStr (fields : List (String × Json)) (key : String) : Option String :=
  match dictGet fields key with
  | some (Json.str s) => some s
  | _ => none

/-- `payload.get(key)` read at an optional-integer field. -/
def getOptInt (fields : List (String × Json)) (key : String) : Option Int :=
  match dictGet fields key with
  | some (Json.num n) => some n
  | _ => none

/-- `payload.get(key, False)` read at a boolean field. -/
def getBoolD (fields : List (String × Json)) (key : String) : Bool :=
  match dictGet fields key with
  | some (Json.bool b) => b
  | _ => false

/-- `TrainingRunMetadata.save`: create `run_logs/` and write the JSON
document snapshotting the options. -/
def TrainingRunMetadata.save (fs : FS) (run_directory : String)
    (options : TrainingOptions) : FS :=
  let metadata_path := run_directory ++ "/run_logs/" ++ metadata_file_name
  let payload := Json.obj [
    ("envPath", jsonOfOptStr options.env_executable_path),
    ("configPath", Json.str options.trainer_config_path),
    ("runId", Json.str options.run_id),
    ("resultsDirectory", Json.str options.results_directory),
    ("condaEnvironmentName", Json.str options.conda_environment_name),
    ("basePort", jsonOfOptInt options.base_port),
    ("noGraphics", Json.bool options.no_graphics),
    ("skipConda", Json.bool options.skip_conda),
    ("launchTensorboard", Json.bool options.launch_tensorboard)]
  (fs.mkdirp [run_directory ++ "/run_logs"]).writeJson metadata_path payload

/-- `TrainingRunMetadata.try_load`: absent file, unreadable file, invalid
JSON and a missing required key (`KeyError`) all yield `Ok none`; a document
that is valid JSON but NOT an object makes the source raise `AttributeError`
at `payload.get("envPath")`, which its `except (OSError, KeyError,
JSONDecodeError)` clause does not catch — modelled as `Except.error`.
Field values are read at the dataclass's annotated types (the source stores
whatever JSON value is present without a type check). -/
def TrainingRunMetadata.try_load (fs : FS) (run_directory : String) :
    Except String (Option TrainingRunMetadata) :=
  let metadata_path := run_directory ++ "/run_logs/" ++ metadata_file_name
  if !(fs.pathExists metadata_path) then Except.ok none
  else
    match fs.readJson metadata_path with
    | none => Except.ok none
    | some (Json.obj payload) =>
      match dictGet payload "configPath", dictGet payload "runId",
            dictGet payload "resultsDirectory", dictGet payload "condaEnvironmentName" with
      | some (Json.str config_path), some (Json.str run_id),
        some (Json.str results_directory), some (Json.str conda_environment_name) =>
        Except.ok (some
          { env_path := getOptStr payload "envPath",
            config_path := config_path,
            run_id := run_id,
            results_directory := results_directory,
            conda_environment_name := conda_environment_name,
            base_port := getOptInt payload "basePort",
            no_graphics := getBoolD payload "noGraphics",
            skip_conda := getBoolD payload "skipConda",
            launch_tensorboard := getBoolD payload "launchTensorboard" })
      | _, _, _, _ => Except.ok none
    | some _ => Except.error "AttributeError"

/-- `TrainingRunMetadata.to_options`. -/
def TrainingRunMetadata.to_options (m : TrainingRunMetadata) : TrainingOptions :=
  { env_executable_path := m.env_path,
    trainer_config_path := m.config_path,
    run_id := m.run_id,
    results_directory := m.results_directory,
    conda_environment_name := m.conda_environment_name,
    base_port := m.base_port,
    no_graphics := m.no_graphics,
    skip_conda := m.skip_conda,
    launch_tensorboard := m.launch_tensorboard }

/-- The state of the `asyncio.Task` owned by a run record: freshly created
(`running`), cancelled, finished with its outcome, or finished such that
`task.result()` raises. -/
inductive TaskState where
  | running
  | cancelled
  | doneResult (outcome : TrainingRunOutcome)
  | doneError (message : String)
deriving Repr, DecidableEq

/-- `task.done()`: true in every state but `running` (a cancelled task is done). -/
def TaskState.done : TaskState → Bool
  | TaskState.running => false
  | _ => true

/-- `run_store.TrainingRunState` (the in-memory run record). -/
structure TrainingRunState where
  options : TrainingOptions
  log_path : String
  tensorboard_url : Option String
  task : TaskState
deriving Repr, DecidableEq

/-- `TrainingRunState.is_completed` = `self._task.done()`. -/
def TrainingRunState.is_completed (s : TrainingRunState) : Bool := s.task.done

/-- `TrainingRunState.start_new`: create the run directories, persist the
metadata, and return the new record whose task has just been scheduled
(`running`).  `runner.tensorboard_url` depends on live port probing and is
passed in as `tb_url`. -/
def TrainingRunState.start_new (fs : FS) (options : TrainingOptions)
    (tb_url : Option String) : TrainingRunState × FS :=
  let run_directory := options.results_directory ++ "/" ++ options.run_id
  let run_logs_directory := run_directory ++ "/run_logs"
  let fs1 := fs.mkdirp [run_directory, run_logs_directory]
  let fs2 := TrainingRunMetadata.save fs1 run_directory options
  let log_path := run_logs_directory ++ "/mentor-api.log"
  ({ options := options, log_path := log_path, tensorboard_url := tb_url,
     task := TaskState.running }, fs2)

/-- `TrainingRunState.to_payload`: derive status from the live task —
cancelled first, then done (outcome inspected, or the exception raised by
`result()` stringified), else running. -/
def TrainingRunState.to_payload (s : TrainingRunState) : TrainingStatusPayload :=
  let scm : String × Option Int × Option String :=
    match s.task with
    | TaskState.cancelled => ("failed", none, some "Training was canceled.")
    | TaskState.doneResult outcome =>
      (if outcome.is_success then "succeeded" else "failed",
       outcome.exit_code, outcome.error)
    | TaskState.doneError message => ("failed", none, some message)
    | TaskState.running => ("running", none, none)
  let training_status_path :=
    build_training_status_path s.options.results_directory s.options.run_id
  { run_id := s.options.run_id,
    status := scm.1,
    completed := scm.1 != "running",
    exit_code := scm.2.1,
    results_directory := some s.options.results_directory,
    training_status_path := some training_status_path,
    message := scm.2.2,
    tensorboard_url := s.tensorboard_url }

/-- `run_store.TrainingStartResult`. -/
structure TrainingStartResult where
  is_started : Bool
  run : Option TrainingRunState
  message : Option String
deriving Repr, DecidableEq

/-- `TrainingStartResult.started`. -/
def TrainingStartResult.started (run : TrainingRunState) : TrainingStartResult :=
  ⟨true, some run, none⟩

/-- `TrainingStartResult.conflict`. -/
def TrainingStartResult.conflict (run : TrainingRunState) (message : Option String) :
    TrainingStartResult :=
  ⟨false, some run, message⟩

/-- The conflict message `try_start` builds for an already-running identifier. -/
def conflictMessage (run_id : String) : String :=
  "Training run '" ++ run_id ++ "' is already in progress."

/-- `run_store.TrainingRunStore`: the registry map (mutation happens under
its lock; the lock itself has no observable state in this sequential model). -/
structure TrainingRunStore where
  runs : List (String × TrainingRunState)
deriving Repr, DecidableEq

/-- `TrainingRunStore.try_start`: conflict when a tracked record exists and
its task is not done, else start a new record and bind it in the map. -/
def TrainingRunStore.try_start (store : TrainingRunStore) (fs : FS)
    (options : TrainingOptions) (tb_url : Option String) :
    TrainingStartResult × TrainingRunStore × FS :=
  match dictGet store.runs options.run_id with
  | some existing =>
    if existing.is_completed then
      let sf := TrainingRunState.start_new fs options tb_url
      (TrainingStartResult.started sf.1,
       ⟨dictSet store.runs options.run_id sf.1⟩, sf.2)
    else
      (TrainingStartResult.conflict existing (some (conflictMessage options.run_id)),
       store, fs)
  | none =>
    let sf := TrainingRunState.start_new fs options tb_url
    (TrainingStartResult.started sf.1,
     ⟨dictSet store.runs options.run_id sf.1⟩, sf.2)

/-- `TrainingRunStore._resolve_results_directory`: `results_dir_override or
DEFAULT_RESULTS_DIRECTORY` (empty string is falsy), then `os.path.abspath`
(modelled as the identity). -/
def resolve_results_directory (results_dir_override : Option String) : String :=
  match results_dir_override with
  | some s => if s ≠ "" then s else DEFAULT_RESULTS_DIRECTORY
  | none => DEFAULT_RESULTS_DIRECTORY

/-- `TrainingRunStore.get_status`: a tracked record wins; otherwise fall
back to the on-disk evidence. -/
def TrainingRunStore.get_status (store : TrainingRunStore) (fs : FS)
    (run_id : String) (results_dir_override : Option String) : TrainingStatusPayload :=
  match dictGet store.runs run_id with
  | some tracked => tracked.to_payload
  | none =>
    TrainingStatusPayload.from_files fs run_id
      (resolve_results_directory results_dir_override)

/-- `run_store._is_completed_status`. -/
def is_completed_status (status : Option String) : Bool :=
  match status with
  | none => false
  | some s =>
    if s = "" then false
    else strToLower s = "succeeded" || strToLower s = "success" || strToLower s = "failed" ||
         strToLower s = "failure" || strToLower s = "completed"

/-- The `envPath` validity test in `resume_unfinished_runs`:
`not env_path or not os.path.isfile(env_path) or not env_path.lower().endswith(".exe")`. -/
def env_path_invalid (fs : FS) (env_path : Option String) : Bool :=
  match env_path with
  | none => true
  | some p => p = "" || !(fs.isFile p) || !(strEndsWith (strToLower p) ".exe")

/-- Skip message for a missing or unreadable metadata file. -/
def skipMetadataMessage (run_id : String) : String :=
  "Skipped '" ++ run_id ++ "' because run_metadata.json is missing or unreadable."

/-- Skip message for a missing or non-`.exe` executable path. -/
def skipEnvMessage (run_id : String) (env_path : Option String) : String :=
  let shown :=
    match env_path with
    | some p => if p ≠ "" then p else "<null>"
    | none => "<null>"
  "Skipped '" ++ run_id ++ "' because envPath is missing or not a valid .exe (" ++
    shown ++ ")."

/-- Message for a successfully resumed run. -/
def resumedMessage (run_id status_label : String) : String :=
  "Resumed unfinished training '" ++ run_id ++ "' (previous status: " ++
    status_label ++ ")."

/-- Fallback conflict message in `resume_unfinished_runs`. -/
def alreadyActiveMessage (run_id : String) : String :=
  "Training run '" ++ run_id ++ "' is already active."

/-- Message when the results root does not exist. -/
def nothingToResumeMessage (results_dir : String) : String :=
  "Results directory '" ++ results_dir ++ "' does not exist. Nothing to resume."

/-- `(status or "unknown").lower()`. -/
def statusLabel (status : Option String) : String :=
  (match status with
   | some s => if s ≠ "" then s else "unknown"
   | none => "unknown")

/-- The loop body of `resume_unfinished_runs` over the entries of
`Path(results_dir).iterdir()`; an uncaught exception from
`TrainingRunMetadata.try_load` aborts the whole pass (`Except.error`). -/
def TrainingRunStore.resume_entries (store : TrainingRunStore) (fs : FS)
    (results_dir : String) (entries : List String) (tb_url : Option String) :
    Except String (List String × TrainingRunStore × FS) :=
  match entries with
  | [] => Except.ok ([], store, fs)
  | name :: rest =>
    let run_directory := results_dir ++ "/" ++ name
    if !(fs.isDir run_directory) then
      store.resume_entries fs results_dir rest tb_url
    else
      let run_id := name
      let status_path := build_training_status_path results_dir run_id
      let status := try_read_status fs status_path
      if is_completed_status status then
        store.resume_entries fs results_dir rest tb_url
      else
        match TrainingRunMetadata.try_load fs run_directory with
        | Except.error e => Except.error e
        | Except.ok none =>
          match store.resume_entries fs results_dir rest tb_url with
          | Except.error e => Except.error e
          | Except.ok (msgs, store2, fs2) =>
            Except.ok (skipMetadataMessage run_id :: msgs, store2, fs2)
        | Except.ok (some metadata) =>
          if env_path_invalid fs metadata.env_path then
            match store.resume_entries fs results_dir rest tb_url with
            | Except.error e => Except.error e
            | Except.ok (msgs, store2, fs2) =>
              Except.ok (skipEnvMessage run_id metadata.env_path :: msgs, store2, fs2)
          else
            let r := store.try_start fs metadata.to_options tb_url
            let msg :=
              if r.1.is_started then resumedMessage run_id (statusLabel status)
              else r.1.message.getD (alreadyActiveMessage run_id)
            match r.2.1.resume_entries r.2.2 results_dir rest tb_url with
            | Except.error e => Except.error e
            | Except.ok (msgs, store2, fs2) =>
              Except.ok (msg :: msgs, store2, fs2)

/-- `TrainingRunStore.resume_unfinished_runs`: early return when the results
root does not exist, else scan its entries.  The `log` sink only echoes the
returned messages and is omitted. -/
def TrainingRunStore.resume_unfinished_runs (store : TrainingRunStore) (fs : FS)
    (results_dir_override : Option String) (entries : List String)
    (tb_url : Option String) :
    Except String (List String × TrainingRunStore × FS) :=
  let results_dir := resolve_results_directory results_dir_override
  if !(fs.isDir results_dir) then
    Except.ok ([nothingToResumeMessage results_dir], store, fs)
  else
    store.resume_entries fs results_dir entries tb_url

/-! Concrete fixtures used to exercise the definitions. -/

/-- A concrete set of validated training options. -/
def optionsA : TrainingOptions :=
  ⟨some "C:/builds/env.exe", "cfg.yaml", "r1", "res", "mlagents", some 5005,
   true, false, true⟩

/-- A run record whose task is still running. -/
def runningStateA : TrainingRunState :=
  ⟨optionsA, "res/r1/run_logs/mentor-api.log", none, TaskState.running⟩

/-- A registry tracking `r1` as running. -/
def storeRunning : TrainingRunStore := ⟨[("r1", runningStateA)]⟩

/-- An empty file system. -/
def fsEmpty : FS := ⟨[], []⟩

/-- A results root where `r1` has a terminal status file reading `Success`. -/
def fsSuccess : FS :=
  ⟨[("res/r1/run_logs/training_status.json",
     some (Json.obj [("status", Json.str "Success")]))], ["res", "res/r1"]⟩

/-- A results root where `r1` has a terminal status file reading `FAILURE`. -/
def fsFailure : FS :=
  ⟨[("res/r1/run_logs/training_status.json",
     some (Json.obj [("status", Json.str "FAILURE")]))], ["res", "res/r1"]⟩

/-- A results root where the `r1` directory exists with no status file. -/
def fsDirOnly : FS := ⟨[], ["res", "res/r1"]⟩

/-- A results root where `r1` has a terminal status file whose `status`
field is the empty string. -/
def fsEmptyStatus : FS :=
  ⟨[("res/r1/run_logs/training_status.json",
     some (Json.obj [("status", Json.str "")]))], ["res", "res/r1"]⟩

/-- A results root where `r1` has a terminal status file whose `status`
field is an unrecognized non-empty string. -/
def fsWeirdStatus : FS :=
  ⟨[("res/r1/run_logs/training_status.json",
     some (Json.obj [("status", Json.str "on-fire")]))], ["res", "res/r1"]⟩

/-- A results root where the `r1` status file exists but is not valid JSON. -/
def fsGarbledStatus : FS :=
  ⟨[("res/r1/run_logs/training_status.json", none)], ["res", "res/r1"]⟩

/-- A results root where the `r1` metadata file is valid JSON but not an
object (the document that trips `payload.get` in the source). -/
def fsListMetadata : FS :=
  ⟨[("res/r1/run_logs/run_metadata.json", some (Json.arr []))], ["res", "res/r1"]⟩

/-- A results root where the `r1` metadata file is unreadable or malformed. -/
def fsGarbledMetadata : FS :=
  ⟨[("res/r1/run_logs/run_metadata.json", none)], ["res", "res/r1"]⟩

/-- A results root where the `r1` metadata file lacks the required
`configPath` key. -/
def fsPartialMetadata : FS :=
  ⟨[("res/r1/run_logs/run_metadata.json",
     some (Json.obj [("runId", Json.str "r1")]))], ["res", "res/r1"]⟩

/-- A results root where the `r1` metadata file holds only the four
required keys. -/
def fsRequiredMetadata : FS :=
  ⟨[("res/r1/run_logs/run_metadata.json",
     some (Json.obj [("configPath", Json.str "cfg.yaml"), ("runId", Json.str "r1"),
                     ("resultsDirectory", Json.str "res"),
                     ("condaEnvironmentName", Json.str "mlagents")]))],
   ["res", "res/r1"]⟩

/-- A run record that finished with exit code 1 and no recorded error. -/
def stateFailedSilent : TrainingRunState :=
  ⟨optionsA, "res/r1/run_logs/mentor-api.log", none,
   TaskState.doneResult ⟨some 1, none⟩⟩

/-- A run record whose task was cancelled. -/
def stateCancelled : TrainingRunState :=
  ⟨optionsA, "res/r1/run_logs/mentor-api.log", none, TaskState.cancelled⟩

/-- A run record whose task finished with a recorded error. -/
def stateErrored : TrainingRunState :=
  ⟨optionsA, "res/r1/run_logs/mentor-api.log", none,
   TaskState.doneResult ⟨none, some "boom"⟩⟩

/-- A run record whose `task.result()` raises. -/
def stateRaised : TrainingRunState :=
  ⟨optionsA, "res/r1/run_logs/mentor-api.log", none, TaskState.doneError "boom"⟩

/-! Dictionary lemmas. -/

/-- Writing a key makes it readable. -/
theorem dictGet_dictSet_self {V : Type} (d : List (String × V)) (k : String) (v : V) :
    dictGet (dictSet d k v) k = some v := by
  induction d with
  | nil => simp [dictSet, dictGet]
  | cons p rest ih =>
    obtain ⟨k1, v1⟩ := p
    by_cases h : k1 = k
    · simp [dictSet, h, dictGet]
    · simp [dictSet, h, dictGet, ih]

/-- The key set after a write. -/
theorem mem_keys_dictSet {V : Type} (d : List (String × V)) (k : String) (v : V)
    (x : String) :
    x ∈ (dictSet d k v).map Prod.fst ↔ x ∈ d.map Prod.fst ∨ x = k := by
  induction d with
  | nil => simp [dictSet]
  | cons p rest ih =>
    obtain ⟨k1, v1⟩ := p
    by_cases h : k1 = k
    · subst h
      simp [dictSet]
      tauto
    · simp [dictSet, h, ih]
      tauto

/-- A write preserves key uniqueness. -/
theorem nodup_keys_dictSet {V : Type} (d : List (String × V)) (k : String) (v : V)
    (h : (d.map Prod.fst).Nodup) : ((dictSet d k v).map Prod.fst).Nodup := by
  induction d with
  | nil => simp [dictSet]
  | cons p rest ih =>
    obtain ⟨k1, v1⟩ := p
    simp only [List.map_cons, List.nodup_cons] at h
    by_cases hk : k1 = k
    · subst hk
      simpa [dictSet] using h
    · simp only [dictSet, if_neg hk, List.map_cons, List.nodup_cons]
      refine ⟨fun hmem => ?_, ih h.2⟩
      rcases (mem_keys_dictSet rest k v k1).1 hmem with h1 | h1
      · exact h.1 h1
      · exact hk h1

/-- Lowercasing the empty string yields the empty string. -/
theorem strToLower_empty : strToLower "" = "" := rfl

/-- A string whose lowercasing is a non-empty string is itself non-empty. -/
theorem ne_empty_of_strToLower {s t : String} (h : strToLower s = t) (ht : t ≠ "") :
    s ≠ "" := by
  intro hs
  subst hs
  rw [strToLower_empty] at h
  exact ht h.symm

/-- A successful JSON read implies the file exists. -/
theorem isFile_of_readJson {fs : FS} {p : String} {j : Json}
    (h : fs.readJson p = some j) : fs.isFile p = true := by
  unfold FS.readJson at h
  unfold FS.isFile
  cases hx : dictGet fs.files p with
  | none => rw [hx] at h; exact absurd h (by simp)
  | some c => simp [hx]

/-- C5 counterexample: the outcome with neither an exit code nor an error is a
success although its exit code is not zero — `(exit_code or 0) == 0` treats an
absent exit code as zero, so "is_success iff error absent and exit code equals
zero" fails at `TrainingRunOutcome(None, None)`. -/
theorem is_success_without_zero_exit :
    TrainingRunOutcome.is_success ⟨none, none⟩ = true ∧
    (⟨none, none⟩ : TrainingRunOutcome).exit_code ≠ some 0 := by decide

/-- C5 (amended): for every TrainingRunOutcome, `is_success` holds iff the
error is absent and the exit code is absent or zero (Python
`(exit_code or 0) == 0`). -/
theorem is_success_iff (o : TrainingRunOutcome) :
    o.is_success = true ↔ o.error = none ∧ o.exit_code.getD 0 = 0 := by
  obtain ⟨ec, err⟩ := o
  cases err <;> cases ec <;>
    simp [TrainingRunOutcome.is_success]

/-- C4 counterexample: a run that finished with a non-zero exit code and no
recorded error yields a payload with status "failed" and no message — a
reachable silent failure state. -/
theorem failed_payload_without_message :
    stateFailedSilent.to_payload.status = "failed" ∧
    stateFailedSilent.to_payload.message = none := by decide

/-- C4 (amended): on the live path a failed payload carries a message exactly
when the failure stems from cancellation, from `task.result()` raising, or
from an error recorded in the outcome; a failure derived from a non-zero exit
code with no error carries no message, and the file-backed path never sets a
message when the terminal status file exists. -/
theorem failed_payload_message_spec (s : TrainingRunState) :
    (s.task = TaskState.cancelled →
      s.to_payload.status = "failed" ∧ s.to_payload.message.isSome = true) ∧
    (∀ m, s.task = TaskState.doneError m →
      s.to_payload.status = "failed" ∧ s.to_payload.message.isSome = true) ∧
    (∀ o, s.task = TaskState.doneResult o → o.error.isSome = true →
      s.to_payload.status = "failed" ∧ s.to_payload.message.isSome = true) ∧
    (∀ o, s.task = TaskState.doneResult o → o.error = none → o.is_success = false →
      s.to_payload.status = "failed" ∧ s.to_payload.message = none) ∧
    (∀ fs r rdir, FS.isFile fs (build_training_status_path rdir r) = true →
      (TrainingStatusPayload.from_files fs r rdir).message = none) := by
  refine ⟨?_, ?_, ?_, ?_, ?_⟩
  · intro h
    simp [TrainingRunState.to_payload, h]
  · intro m h
    simp [TrainingRunState.to_payload, h]
  · intro o h herr
    obtain ⟨ec, err⟩ := o
    cases err with
    | none => simp at herr
    | some e =>
      simp [TrainingRunState.to_payload, h, TrainingRunOutcome.is_success]
  · intro o h herr hfail
    simp [TrainingRunState.to_payload, h, herr, hfail]
  · intro fs r rdir hfile
    simp [TrainingStatusPayload.from_files, hfile]

/-- C4 witness: concrete failed records of each kind, and a file-backed
failed payload, exercising every branch of the amended statement. -/
theorem failed_payload_message_spec_witness :
    stateCancelled.to_payload.message.isSome = true ∧
    stateErrored.to_payload.message.isSome = true ∧
    stateRaised.to_payload.message.isSome = true ∧
    stateFailedSilent.to_payload.message = none ∧
    (TrainingStatusPayload.from_files fsFailure "r1" "res").message = none := by
  refine ⟨((failed_payload_message_spec stateCancelled).1 rfl).2,
    ((failed_payload_message_spec stateErrored).2.2.1 ⟨none, some "boom"⟩ rfl (by decide)).2,
    ((failed_payload_message_spec stateRaised).2.1 "boom" rfl).2,
    ((failed_payload_message_spec stateFailedSilent).2.2.2.1 ⟨some 1, none⟩ rfl rfl
      (by decide)).2,
    (failed_payload_message_spec stateCancelled).2.2.2.2 fsFailure "r1" "res" (by decide)⟩

/-- C10 counterexample: a terminal status file whose `status` field is the
empty string — a string outside the recognized synonym set — is reported as
the literal status "completed", not verbatim. -/
theorem empty_status_not_verbatim :
    try_read_status fsEmptyStatus "res/r1/run_logs/training_status.json" = some "" ∧
    statusLookup (strToLower "") = none ∧
    (TrainingStatusPayload.from_files fsEmptyStatus "r1" "res").status = "completed" ∧
    (TrainingStatusPayload.from_files fsEmptyStatus "r1" "res").status ≠ "" := by
  refine ⟨rfl, rfl, by decide, by decide⟩

/-- C10 (amended): whenever the terminal status file exists the file-backed
payload has completed = true and exit_code = none regardless of content; a
file that is unreadable, not valid JSON, not an object, or without a string
`status` field yields the literal status "completed", as does an empty status
string; a NON-EMPTY status string outside the recognized synonym set is
returned verbatim. -/
theorem from_files_file_present_spec (fs : FS) (r rdir : String)
    (hfile : fs.isFile (build_training_status_path rdir r) = true) :
    (TrainingStatusPayload.from_files fs r rdir).completed = true ∧
    (TrainingStatusPayload.from_files fs r rdir).exit_code = none ∧
    (try_read_status fs (build_training_status_path rdir r) = none →
      (TrainingStatusPayload.from_files fs r rdir).status = "completed") ∧
    (try_read_status fs (build_training_status_path rdir r) = some "" →
      (TrainingStatusPayload.from_files fs r rdir).status = "completed") ∧
    (∀ s, try_read_status fs (build_training_status_path rdir r) = some s → s ≠ "" →
      statusLookup (strToLower s) = none →
      (TrainingStatusPayload.from_files fs r rdir).status = s) := by
  refine ⟨?_, ?_, ?_, ?_, ?_⟩
  · simp [TrainingStatusPayload.from_files, hfile]
  · simp [TrainingStatusPayload.from_files, hfile]
  · intro h
    simp [TrainingStatusPayload.from_files, hfile, h, normalize_status]
  · intro h
    simp [TrainingStatusPayload.from_files, hfile, h, normalize_status]
  · intro s h hne hmiss
    simp [TrainingStatusPayload.from_files, hfile, h, normalize_status, hne, hmiss]

/-- C10 witness: a garbled status file reports "completed"; an unrecognized
non-empty status string is reported verbatim with completed = true and no
exit code. -/
theorem from_files_file_present_spec_witness :
    (TrainingStatusPayload.from_files fsGarbledStatus "r1" "res").status = "completed" ∧
    (TrainingStatusPayload.from_files fsWeirdStatus "r1" "res").status = "on-fire" ∧
    (TrainingStatusPayload.from_files fsWeirdStatus "r1" "res").completed = true ∧
    (TrainingStatusPayload.from_files fsWeirdStatus "r1" "res").exit_code = none := by
  refine ⟨(from_files_file_present_spec fsGarbledStatus "r1" "res" (by decide)).2.2.1 rfl,
    (from_files_file_present_spec fsWeirdStatus "r1" "res" (by decide)).2.2.2.2 "on-fire"
      rfl (by decide) (by decide),
    (from_files_file_present_spec fsWeirdStatus "r1" "res" (by decide)).1,
    (from_files_file_present_spec fsWeirdStatus "r1" "res" (by decide)).2.1⟩

/-- C1: `try_start` returns a conflict (is_started = false, with the message
naming the identifier) iff the registry holds a record for the identifier
whose task is not completed, and then the map and the file system are
unchanged; otherwise it returns started and the map binds the identifier to
exactly the newly created record; key uniqueness is preserved, so there is at
most one tracked record per identifier. -/
theorem try_start_spec (store : TrainingRunStore) (fs : FS) (o : TrainingOptions)
    (tb : Option String) (hnodup : (store.runs.map Prod.fst).Nodup) :
    ((store.try_start fs o tb).1.is_started = false ↔
      ∃ st, dictGet store.runs o.run_id = some st ∧ st.is_completed = false) ∧
    ((store.try_start fs o tb).1.is_started = false →
      (store.try_start fs o tb).1.message = some (conflictMessage o.run_id) ∧
      (store.try_start fs o tb).2.1 = store ∧ (store.try_start fs o tb).2.2 = fs) ∧
    ((store.try_start fs o tb).1.is_started = true →
      (store.try_start fs o tb).1.run = some (TrainingRunState.start_new fs o tb).1 ∧
      dictGet (store.try_start fs o tb).2.1.runs o.run_id =
        some (TrainingRunState.start_new fs o tb).1 ∧
      (store.try_start fs o tb).2.2 = (TrainingRunState.start_new fs o tb).2) ∧
    ((store.try_start fs o tb).2.1.runs.map Prod.fst).Nodup := by
  unfold TrainingRunStore.try_start
  cases hx : dictGet store.runs o.run_id with
  | none =>
    refine ⟨by simp [TrainingStartResult.started, hx], ?_, ?_, ?_⟩
    · intro h
      exact absurd h (by simp [TrainingStartResult.started])
    · intro _
      exact ⟨rfl, dictGet_dictSet_self _ _ _, rfl⟩
    · exact nodup_keys_dictSet _ _ _ hnodup
  | some ex =>
    by_cases hc : ex.is_completed = true
    · simp only [hc, if_true]
      refine ⟨by simp [TrainingStartResult.started, hx, hc], ?_, ?_, ?_⟩
      · intro h
        exact absurd h (by simp [TrainingStartResult.started])
      · intro _
        exact ⟨rfl, dictGet_dictSet_self _ _ _, by trivial⟩
      · exact nodup_keys_dictSet _ _ _ hnodup
    · simp only [hc, if_false]
      refine ⟨by simp [TrainingStartResult.conflict, hx,
                Bool.not_eq_true _ ▸ hc, Bool.eq_false_iff.mpr hc], ?_, ?_, ?_⟩
      · intro _
        exact ⟨rfl, rfl, rfl⟩
      · intro h
        exact absurd h (by simp [TrainingStartResult.conflict])
      · exact hnodup

/-- C1 witness: starting `r1` while it is tracked as running yields a
conflict with the message naming `r1`, and leaves the registry unchanged. -/
theorem try_start_spec_witness :
    (storeRunning.try_start fsEmpty optionsA none).1.is_started = false ∧
    (storeRunning.try_start fsEmpty optionsA none).1.message =
      some (conflictMessage "r1") ∧
    (storeRunning.try_start fsEmpty optionsA none).2.1 = storeRunning := by
  have h := try_start_spec storeRunning fsEmpty optionsA none (by decide)
  have hconf : (storeRunning.try_start fsEmpty optionsA none).1.is_started = false :=
    h.1.mpr ⟨runningStateA, by decide, by decide⟩
  exact ⟨hconf, (h.2.1 hconf).1, (h.2.1 hconf).2.1⟩

/-- C2: for an identifier with no tracked record, a status query falls back to
the on-disk evidence and distinguishes exactly three cases: no run directory
and no status file gives "not-found" (completed = false); a run directory
without the terminal status file gives "unknown" (completed = false); an
existing terminal status file gives the status normalized from its content
with completed = true. -/
theorem get_status_file_cases (store : TrainingRunStore) (fs : FS) (r rdir : String)
    (htracked : dictGet store.runs r = none) (hdir : rdir ≠ "") :
    store.get_status fs r (some rdir) = TrainingStatusPayload.from_files fs r rdir ∧
    (fs.isFile (build_training_status_path rdir r) = false →
      fs.isDir (build_run_directory rdir r) = false →
      (store.get_status fs r (some rdir)).status = "not-found" ∧
      (store.get_status fs r (some rdir)).completed = false) ∧
    (fs.isFile (build_training_status_path rdir r) = false →
      fs.isDir (build_run_directory rdir r) = true →
      (store.get_status fs r (some rdir)).status = "unknown" ∧
      (store.get_status fs r (some rdir)).completed = false) ∧
    (fs.isFile (build_training_status_path rdir r) = true →
      (store.get_status fs r (some rdir)).status =
        normalize_status (try_read_status fs (build_training_status_path rdir r)) ∧
      (store.get_status fs r (some rdir)).completed = true) := by
  have heq : store.get_status fs r (some rdir) =
      TrainingStatusPayload.from_files fs r rdir := by
    unfold TrainingRunStore.get_status
    rw [htracked]
    simp [resolve_results_directory, hdir]
  refine ⟨heq, ?_, ?_, ?_⟩ <;> rw [heq] <;> unfold TrainingStatusPayload.from_files
  · intro h1 h2
    simp [h1, h2]
  · intro h1 h2
    simp [h1, h2]
  · intro h1
    simp [h1]

/-- C2 witness: an untracked identifier at each of the three file states. -/
theorem get_status_file_cases_witness :
    (TrainingRunStore.get_status ⟨[]⟩ fsEmpty "r1" (some "res")).status = "not-found" ∧
    (TrainingRunStore.get_status ⟨[]⟩ fsEmpty "r1" (some "res")).completed = false ∧
    (TrainingRunStore.get_status ⟨[]⟩ fsDirOnly "r1" (some "res")).status = "unknown" ∧
    (TrainingRunStore.get_status ⟨[]⟩ fsDirOnly "r1" (some "res")).completed = false ∧
    (TrainingRunStore.get_status ⟨[]⟩ fsSuccess "r1" (some "res")).status = "succeeded" ∧
    (TrainingRunStore.get_status ⟨[]⟩ fsSuccess "r1" (some "res")).completed = true := by
  have h1 := get_status_file_cases ⟨[]⟩ fsEmpty "r1" "res" rfl (by decide)
  have h2 := get_status_file_cases ⟨[]⟩ fsDirOnly "r1" "res" rfl (by decide)
  have h3 := get_status_file_cases ⟨[]⟩ fsSuccess "r1" "res" rfl (by decide)
  have c1 := h1.2.1 (by decide) (by decide)
  have c2 := h2.2.2.1 (by decide) (by decide)
  have c3 := h3.2.2.2 (by decide)
  refine ⟨c1.1, c1.2, c2.1, c2.2, ?_, c3.2⟩
  rw [c3.1]
  decide

/-- C6: status normalization is case-insensitive and maps the synonyms as
specified: any casing of success, succeeded or completed in the terminal
status file yields status "succeeded", and any casing of failure or failed
yields "failed", with completed = true. -/
theorem normalize_status_synonyms (fs : FS) (r rdir s : String)
    (hfile : fs.isFile (build_training_status_path rdir r) = true)
    (hread : try_read_status fs (build_training_status_path rdir r) = some s) :
    ((strToLower s = "success" ∨ strToLower s = "succeeded" ∨
        strToLower s = "completed") →
      (TrainingStatusPayload.from_files fs r rdir).status = "succeeded" ∧
      (TrainingStatusPayload.from_files fs r rdir).completed = true) ∧
    ((strToLower s = "failure" ∨ strToLower s = "failed") →
      (TrainingStatusPayload.from_files fs r rdir).status = "failed" ∧
      (TrainingStatusPayload.from_files fs r rdir).completed = true) := by
  have hs : (TrainingStatusPayload.from_files fs r rdir).status =
      normalize_status (some s) := by
    unfold TrainingStatusPayload.from_files
    simp [hfile, hread]
  have hc : (TrainingStatusPayload.from_files fs r rdir).completed = true := by
    unfold TrainingStatusPayload.from_files
    simp [hfile]
  constructor
  · rintro (h | h | h) <;>
      exact ⟨by rw [hs]; simp [normalize_status,
              ne_empty_of_strToLower h (by decide), h, statusLookup], hc⟩
  · rintro (h | h) <;>
      exact ⟨by rw [hs]; simp [normalize_status,
              ne_empty_of_strToLower h (by decide), h, statusLookup], hc⟩

/-- C6 witness: the file `{"status":"Success"}` reads back as "succeeded" and
`{"status":"FAILURE"}` as "failed". -/
theorem normalize_status_synonyms_witness :
    (TrainingStatusPayload.from_files fsSuccess "r1" "res").status = "succeeded" ∧
    (TrainingStatusPayload.from_files fsFailure "r1" "res").status = "failed" := by
  have h1 := normalize_status_synonyms fsSuccess "r1" "res" "Success"
    (by decide) (by decide)
  have h2 := normalize_status_synonyms fsFailure "r1" "res" "FAILURE"
    (by decide) (by decide)
  exact ⟨(h1.1 (Or.inl (by decide))).1, (h2.2 (Or.inl (by decide))).1⟩

/-- C7: `try_load` returns absent (`Ok none`, not an error) when the metadata
file does not exist, when the document is unreadable or not valid JSON, and
when a required field (configPath, runId, resultsDirectory,
condaEnvironmentName) is missing; a document holding exactly the required
fields loads with the defaults none, none, false, false, false for the
optional fields. -/
theorem try_load_spec (fs : FS) (d : String) :
    (fs.pathExists (d ++ "/run_logs/" ++ metadata_file_name) = false →
      TrainingRunMetadata.try_load fs d = Except.ok none) ∧
    (fs.readJson (d ++ "/run_logs/" ++ metadata_file_name) = none →
      TrainingRunMetadata.try_load fs d = Except.ok none) ∧
    (∀ payload,
      fs.readJson (d ++ "/run_logs/" ++ metadata_file_name) = some (Json.obj payload) →
      (dictGet payload "configPath" = none ∨ dictGet payload "runId" = none ∨
       dictGet payload "resultsDirectory" = none ∨
       dictGet payload "condaEnvironmentName" = none) →
      TrainingRunMetadata.try_load fs d = Except.ok none) ∧
    (∀ cp rid rdir cen,
      fs.readJson (d ++ "/run_logs/" ++ metadata_file_name) =
        some (Json.obj [("configPath", Json.str cp), ("runId", Json.str rid),
                        ("resultsDirectory", Json.str rdir),
                        ("condaEnvironmentName", Json.str cen)]) →
      TrainingRunMetadata.try_load fs d =
        Except.ok (some ⟨none, cp, rid, rdir, cen, none, false, false, false⟩)) := by
  refine ⟨?_, ?_, ?_, ?_⟩
  · intro h
    unfold TrainingRunMetadata.try_load
    simp [h]
  · intro h
    unfold TrainingRunMetadata.try_load
    by_cases hp : fs.pathExists (d ++ "/run_logs/" ++ metadata_file_name) = true
    · simp [hp, h]
    · simp [Bool.eq_false_iff.mpr hp]
  · intro payload hread hmiss
    have hfile := isFile_of_readJson hread
    have hp : fs.pathExists (d ++ "/run_logs/" ++ metadata_file_name) = true := by
      unfold FS.pathExists
      simp [hfile]
    unfold TrainingRunMetadata.try_load
    simp only [hp, hread, Bool.not_true, Bool.false_eq_true, if_false]
    split
    · rename_i hcp hrid hrdir hcen
      rcases hmiss with h | h | h | h <;> simp_all
    · rfl
  · intro cp rid rdir cen hread
    have hfile := isFile_of_readJson hread
    have hp : fs.pathExists (d ++ "/run_logs/" ++ metadata_file_name) = true := by
      unfold FS.pathExists
      simp [hfile]
    unfold TrainingRunMetadata.try_load
    simp only [hp, hread, Bool.not_true, Bool.false_eq_true, if_false]
    simp [dictGet, getOptStr, getOptInt, getBoolD]

/-- C7 witness: the four cases at concrete metadata files. -/
theorem try_load_spec_witness :
    TrainingRunMetadata.try_load fsEmpty "res/r1" = Except.ok none ∧
    TrainingRunMetadata.try_load fsGarbledMetadata "res/r1" = Except.ok none ∧
    TrainingRunMetadata.try_load fsPartialMetadata "res/r1" = Except.ok none ∧
    TrainingRunMetadata.try_load fsRequiredMetadata "res/r1" =
      Except.ok (some ⟨none, "cfg.yaml", "r1", "res", "mlagents",
                       none, false, false, false⟩) := by
  refine ⟨(try_load_spec fsEmpty "res/r1").1 (by decide),
    (try_load_spec fsGarbledMetadata "res/r1").2.1 rfl,
    (try_load_spec fsPartialMetadata "res/r1").2.2.1 [("runId", Json.str "r1")] rfl
      (Or.inl rfl),
    (try_load_spec fsRequiredMetadata "res/r1").2.2.2 "cfg.yaml" "r1" "res" "mlagents" rfl⟩

/-- C9: metadata persistence round-trips — after `save`, `try_load` returns
metadata whose `to_options` equals the saved options field for field. -/
theorem save_load_roundtrip (fs : FS) (d : String) (o : TrainingOptions) :
    ∃ m, TrainingRunMetadata.try_load (TrainingRunMetadata.save fs d o) d =
           Except.ok (some m) ∧ m.to_options = o := by
  obtain ⟨ep, cp, rid, rdir, cen, bp, ng, sc, lt⟩ := o
  refine ⟨⟨ep, cp, rid, rdir, cen, bp, ng, sc, lt⟩, ?_, rfl⟩
  cases ep <;> cases bp <;>
    simp [TrainingRunMetadata.try_load, TrainingRunMetadata.save, FS.writeJson,
      FS.readJson, FS.pathExists, FS.isFile, FS.mkdirp, dictGet_dictSet_self,
      dictGet, getOptStr, getOptInt, getBoolD, jsonOfOptStr, jsonOfOptInt]

/-- C8: the recovery scan skips — without calling `try_start`, without a
message, and without touching the registry or the file system — any run
directory whose terminal status file holds a recognized terminal status
(case-insensitively success, succeeded, completed, failure or failed). -/
theorem resume_skips_terminal (store : TrainingRunStore) (fs : FS)
    (results_dir name s : String) (rest : List String) (tb : Option String)
    (hdir : fs.isDir (results_dir ++ "/" ++ name) = true)
    (hread : try_read_status fs (build_training_status_path results_dir name) = some s)
    (hterm : strToLower s = "success" ∨ strToLower s = "succeeded" ∨
             strToLower s = "completed" ∨ strToLower s = "failure" ∨
             strToLower s = "failed") :
    store.resume_entries fs results_dir (name :: rest) tb =
      store.resume_entries fs results_dir rest tb := by
  have hne : s ≠ "" := by
    rcases hterm with h | h | h | h | h <;> exact ne_empty_of_strToLower h (by decide)
  have hcs : is_completed_status (some s) = true := by
    simp only [is_completed_status]
    rw [if_neg hne]
    rcases hterm with h | h | h | h | h <;> simp [h]
  conv_lhs => rw [TrainingRunStore.resume_entries]
  rw [hdir]
  simp only [Bool.not_true, Bool.false_eq_true, if_false]
  rw [hread, hcs]
  simp

/-- C8 witness: a run whose status file reads `Success` is passed over
unchanged by the scan. -/
theorem resume_skips_terminal_witness :
    TrainingRunStore.resume_entries ⟨[]⟩ fsSuccess "res" ["r1"] none =
      TrainingRunStore.resume_entries ⟨[]⟩ fsSuccess "res" [] none := by
  exact resume_skips_terminal ⟨[]⟩ fsSuccess "res" "r1" "Success" [] none
    (by decide) (by decide) (Or.inl (by decide))

/-- C3 (the code at the failing input): a run directory whose
`run_metadata.json` is valid JSON but not an object makes the whole recovery
pass raise (`AttributeError` escapes `resume_unfinished_runs`) instead of
skipping that run with a message. -/
theorem resume_raises_on_list_metadata :
    TrainingRunStore.resume_unfinished_runs ⟨[]⟩ fsListMetadata (some "res") ["r1"] none =
      Except.error "AttributeError" := by
  rfl

end Mentor
